import Mathlib

/-!
Shallow embedding of the Kademlia wire-protocol codec of
`protocols/kad/src/protocol.rs` (libp2p-rs), together with proofs about
its encode/decode functions.

Modelling conventions:
* byte strings (`Vec<u8>`) are `List Nat`;
* `Instant` is a natural number of nanosecond ticks, `Duration::from_secs s`
  adds `s * nanosPerSec` ticks, and `Instant::now()` is passed explicitly as
  a `now : Nat` argument to the functions that call it in the source;
* the external parsers `PeerId::from_bytes` and `Multiaddr::try_from`
  (defined outside this source file) are opaque: they are parameterised by
  validity predicates `vPid vAddr : Bytes → Bool` saying which byte strings
  parse successfully, and `into_bytes` / `to_vec` return the stored bytes;
* `record::Key::from` / `Key::to_vec` are mutually inverse on byte strings,
  so record keys are modelled as the byte strings themselves;
* `io::Error` is a kind (only `InvalidData` is ever produced here) plus the
  message string passed to the `invalid_data` helper;
* `u32` truncation (`as u32`) is `% 2^32`.
-/

namespace KadProtocol

/-- Raw byte strings (`Vec<u8>` in the source). -/
abbrev Bytes := List Nat

/-- Nanosecond ticks per second: `Instant` is modelled in nanoseconds. -/
def nanosPerSec : Nat := 1000000000

/-- A parsed peer identifier, carrying its byte representation. -/
structure PeerId where
  bytes : Bytes
deriving DecidableEq

/-- `PeerId::into_bytes`. -/
def PeerId.into_bytes (p : PeerId) : Bytes := p.bytes

/-- `PeerId::from_bytes`, with the external validity predicate `vPid`. -/
def PeerId.from_bytes (vPid : Bytes → Bool) (bs : Bytes) : Option PeerId :=
  if vPid bs then some ⟨bs⟩ else none

/-- A parsed multiaddress, carrying its byte representation. -/
structure Multiaddr where
  bytes : Bytes
deriving DecidableEq

/-- `Multiaddr::to_vec`. -/
def Multiaddr.to_vec (a : Multiaddr) : Bytes := a.bytes

/-- `Multiaddr::try_from`, with the external validity predicate `vAddr`. -/
def Multiaddr.try_from (vAddr : Bytes → Bool) (bs : Bytes) : Option Multiaddr :=
  if vAddr bs then some ⟨bs⟩ else none

/-- `KadConnectionType`: status of the sender's connection to a node. -/
inductive KadConnectionType
  | NotConnected
  | Connected
  | CanConnect
  | CannotConnect
deriving DecidableEq

/-- The wire code of a connection type (`ct as i32` after `Into`). -/
def KadConnectionType.toInt : KadConnectionType → Int
  | .NotConnected => 0
  | .Connected => 1
  | .CanConnect => 2
  | .CannotConnect => 3

/-- `proto::message::ConnectionType::from_i32` composed with `Into`. -/
def connectionTypeFromInt (i : Int) : Option KadConnectionType :=
  if i = 0 then some .NotConnected
  else if i = 1 then some .Connected
  else if i = 2 then some .CanConnect
  else if i = 3 then some .CannotConnect
  else none

/-- `KadPeer`: information about a peer, as known by the sender. -/
structure KadPeer where
  node_id : PeerId
  multiaddrs : List Multiaddr
  connection_ty : KadConnectionType
deriving DecidableEq

/-- Wire peer entry `proto::message::Peer`. -/
structure ProtoPeer where
  id : Bytes
  addrs : List Bytes
  connection : Int
deriving DecidableEq

/-- Wire record `proto::Record` (`ttl` is a `u32`, held as a `Nat`). -/
structure ProtoRecord where
  key : Bytes
  value : Bytes
  publisher : Bytes
  ttl : Nat
  time_received : String
deriving DecidableEq

/-- `proto::Record::default()`. -/
def ProtoRecord.default : ProtoRecord :=
  { key := [], value := [], publisher := [], ttl := 0, time_received := "" }

/-- Wire message `proto::Message`; `mtype` is the `r#type` field (an `i32`),
`cluster_level_raw` is a `u32` held as a `Nat`. -/
structure ProtoMessage where
  mtype : Int
  key : Bytes
  record : Option ProtoRecord
  cluster_level_raw : Nat
  closer_peers : List ProtoPeer
  provider_peers : List ProtoPeer
deriving DecidableEq

/-- `proto::Message::default()`. -/
def ProtoMessage.default : ProtoMessage :=
  { mtype := 0, key := [], record := none, cluster_level_raw := 0,
    closer_peers := [], provider_peers := [] }

/-- `proto::message::MessageType` with its wire codes. -/
inductive MessageType
  | Ping
  | PutValue
  | GetValue
  | AddProvider
  | GetProviders
  | FindNode
deriving DecidableEq

/-- The wire code of a message type (`mt as i32`). -/
def MessageType.toInt : MessageType → Int
  | .Ping => 0
  | .PutValue => 1
  | .GetValue => 2
  | .AddProvider => 3
  | .GetProviders => 4
  | .FindNode => 5

/-- `proto::message::MessageType::from_i32`. -/
def messageTypeFromInt (i : Int) : Option MessageType :=
  if i = 0 then some .Ping
  else if i = 1 then some .PutValue
  else if i = 2 then some .GetValue
  else if i = 3 then some .AddProvider
  else if i = 4 then some .GetProviders
  else if i = 5 then some .FindNode
  else none

/-- The kind of an `io::Error`; the codec only ever produces `invalidData`. -/
inductive IoErrorKind
  | invalidData
  | other
deriving DecidableEq

/-- An `io::Error`: its kind and its message. -/
structure IoError where
  kind : IoErrorKind
  msg : String
deriving DecidableEq

/-- The `invalid_data` helper: an `io::Error` of kind `InvalidData`. -/
def invalid_data (s : String) : IoError := { kind := .invalidData, msg := s }

/-- A DHT record (`Record` from `crate::record`); `expires` is an optional
`Instant` in nanosecond ticks. -/
structure Record where
  key : Bytes
  value : Bytes
  publisher : Option PeerId
  expires : Option Nat
deriving DecidableEq

/-- Request messages (`KadRequestMsg`). -/
inductive KadRequestMsg
  | Ping
  | FindNode (key : Bytes)
  | GetProviders (key : Bytes)
  | AddProvider (key : Bytes) (provider : KadPeer)
  | GetValue (key : Bytes)
  | PutValue (record : Record)
deriving DecidableEq

/-- Response messages (`KadResponseMsg`). -/
inductive KadResponseMsg
  | Pong
  | FindNode (closer_peers : List KadPeer)
  | GetProviders (closer_peers : List KadPeer) (provider_peers : List KadPeer)
  | GetValue (record : Option Record) (closer_peers : List KadPeer)
  | PutValue (key : Bytes) (value : Bytes)
deriving DecidableEq

/-- The address-parsing loop of `KadPeer::try_from`: parses each entry in
order, failing on the first entry `Multiaddr::try_from` rejects. -/
def parseAddrs (vAddr : Bytes → Bool) : List Bytes → Except IoError (List Multiaddr)
  | [] => .ok []
  | a :: rest =>
    match Multiaddr.try_from vAddr a with
    | none => .error (invalid_data "invalid multiaddr")
    | some ma =>
      match parseAddrs vAddr rest with
      | .error e => .error e
      | .ok mas => .ok (ma :: mas)

/-- `KadPeer::try_from(proto::message::Peer)`. -/
def KadPeer.try_from (vPid vAddr : Bytes → Bool) (peer : ProtoPeer) :
    Except IoError KadPeer :=
  match PeerId.from_bytes vPid peer.id with
  | none => .error (invalid_data "invalid peer id")
  | some node_id =>
    match parseAddrs vAddr peer.addrs with
    | .error e => .error e
    | .ok addrs =>
      match connectionTypeFromInt peer.connection with
      | none => .error (invalid_data "unknown connection type")
      | some ct => .ok { node_id := node_id, multiaddrs := addrs, connection_ty := ct }

/-- `Into<proto::message::Peer> for KadPeer`. -/
def KadPeer.intoProto (p : KadPeer) : ProtoPeer :=
  { id := p.node_id.into_bytes,
    addrs := p.multiaddrs.map Multiaddr.to_vec,
    connection := p.connection_ty.toInt }

/-- `record_to_proto`, with `now` the value of `Instant::now()`. -/
def record_to_proto (now : Nat) (record : Record) : ProtoRecord :=
  { key := record.key,
    value := record.value,
    publisher := (record.publisher.map PeerId.into_bytes).getD [],
    ttl :=
      match record.expires with
      | some t => if now < t then ((t - now) / nanosPerSec) % 2 ^ 32 else 1
      | none => 0,
    time_received := "" }

/-- `record_from_proto`, with `now` the value of `Instant::now()`. -/
def record_from_proto (vPid : Bytes → Bool) (now : Nat) (record : ProtoRecord) :
    Except IoError Record :=
  let key := record.key
  let value := record.value
  match
    (if record.publisher ≠ [] then
      match PeerId.from_bytes vPid record.publisher with
      | some p => Except.ok (some p)
      | none => Except.error (invalid_data "Invalid publisher peer ID.")
    else Except.ok none : Except IoError (Option PeerId)) with
  | .error e => .error e
  | .ok publisher =>
    let expires := if record.ttl > 0 then some (now + record.ttl * nanosPerSec) else none
    .ok { key := key, value := value, publisher := publisher, expires := expires }

/-- `req_msg_to_proto`: converts a `KadRequestMsg` into the wire message. -/
def req_msg_to_proto (now : Nat) (kad_msg : KadRequestMsg) : ProtoMessage :=
  match kad_msg with
  | .Ping =>
    { ProtoMessage.default with mtype := MessageType.Ping.toInt }
  | .FindNode key =>
    { ProtoMessage.default with
      mtype := MessageType.FindNode.toInt, key := key, cluster_level_raw := 10 }
  | .GetProviders key =>
    { ProtoMessage.default with
      mtype := MessageType.GetProviders.toInt, key := key, cluster_level_raw := 10 }
  | .AddProvider key provider =>
    { ProtoMessage.default with
      mtype := MessageType.AddProvider.toInt, cluster_level_raw := 10,
      key := key, provider_peers := [provider.intoProto] }
  | .GetValue key =>
    { ProtoMessage.default with
      mtype := MessageType.GetValue.toInt, cluster_level_raw := 10, key := key }
  | .PutValue record =>
    { ProtoMessage.default with
      mtype := MessageType.PutValue.toInt, record := some (record_to_proto now record) }

/-- `resp_msg_to_proto`: converts a `KadResponseMsg` into the wire message. -/
def resp_msg_to_proto (now : Nat) (kad_msg : KadResponseMsg) : ProtoMessage :=
  match kad_msg with
  | .Pong =>
    { ProtoMessage.default with mtype := MessageType.Ping.toInt }
  | .FindNode closer_peers =>
    { ProtoMessage.default with
      mtype := MessageType.FindNode.toInt, cluster_level_raw := 9,
      closer_peers := closer_peers.map KadPeer.intoProto }
  | .GetProviders closer_peers provider_peers =>
    { ProtoMessage.default with
      mtype := MessageType.GetProviders.toInt, cluster_level_raw := 9,
      closer_peers := closer_peers.map KadPeer.intoProto,
      provider_peers := provider_peers.map KadPeer.intoProto }
  | .GetValue record closer_peers =>
    { ProtoMessage.default with
      mtype := MessageType.GetValue.toInt, cluster_level_raw := 9,
      closer_peers := closer_peers.map KadPeer.intoProto,
      record := record.map (record_to_proto now) }
  | .PutValue key value =>
    { ProtoMessage.default with
      mtype := MessageType.PutValue.toInt, key := key,
      record := some { ProtoRecord.default with key := key, value := value } }

/-- `proto_to_req_msg`: converts a received wire message into a
`KadRequestMsg`, failing if it is not a valid request. -/
def proto_to_req_msg (vPid vAddr : Bytes → Bool) (now : Nat) (message : ProtoMessage) :
    Except IoError KadRequestMsg :=
  match messageTypeFromInt message.mtype with
  | none => .error (invalid_data ("unknown message type: " ++ toString message.mtype))
  | some msg_type =>
    match msg_type with
    | .Ping => .ok .Ping
    | .PutValue =>
      match record_from_proto vPid now (message.record.getD ProtoRecord.default) with
      | .error e => .error e
      | .ok record => .ok (.PutValue record)
    | .GetValue => .ok (.GetValue message.key)
    | .FindNode => .ok (.FindNode message.key)
    | .GetProviders => .ok (.GetProviders message.key)
    | .AddProvider =>
      match message.provider_peers.findSome?
          (fun peer => (KadPeer.try_from vPid vAddr peer).toOption) with
      | some provider => .ok (.AddProvider message.key provider)
      | none => .error (invalid_data "AddProvider message with no valid peer.")

/-- `proto_to_resp_msg`: converts a received wire message into a
`KadResponseMsg`, failing if it is not a valid response. -/
def proto_to_resp_msg (vPid vAddr : Bytes → Bool) (now : Nat) (message : ProtoMessage) :
    Except IoError KadResponseMsg :=
  match messageTypeFromInt message.mtype with
  | none => .error (invalid_data ("unknown message type: " ++ toString message.mtype))
  | some msg_type =>
    match msg_type with
    | .Ping => .ok .Pong
    | .GetValue =>
      match
        (match message.record with
         | some r =>
           match record_from_proto vPid now r with
           | .error e => Except.error e
           | .ok rec => Except.ok (some rec)
         | none => Except.ok none : Except IoError (Option Record)) with
      | .error e => .error e
      | .ok record =>
        .ok (.GetValue record
          (message.closer_peers.filterMap
            (fun peer => (KadPeer.try_from vPid vAddr peer).toOption)))
    | .FindNode =>
      .ok (.FindNode
        (message.closer_peers.filterMap
          (fun peer => (KadPeer.try_from vPid vAddr peer).toOption)))
    | .GetProviders =>
      .ok (.GetProviders
        (message.closer_peers.filterMap
          (fun peer => (KadPeer.try_from vPid vAddr peer).toOption))
        (message.provider_peers.filterMap
          (fun peer => (KadPeer.try_from vPid vAddr peer).toOption)))
    | .PutValue =>
      match message.record with
      | none => .error (invalid_data "received PutValue message with no record")
      | some rec => .ok (.PutValue message.key rec.value)
    | .AddProvider => .error (invalid_data "received an unexpected AddProvider message")

/-- The fragment of `KadError` used by `process_kad_response`. -/
inductive KadError
  | UnexpectedMessage (s : String)
deriving DecidableEq

/-- The outbound-completion fragment of `ProtocolEvent<TUserData>` (the other
variants carry connections or one-shot channels and are never produced by
`process_kad_response`). -/
inductive ProtocolEvent (TUserData : Type)
  | FindNodeRes (closer_peers : List KadPeer) (user_data : TUserData)
  | GetProvidersRes (closer_peers : List KadPeer) (provider_peers : List KadPeer)
      (user_data : TUserData)
  | QueryError (error : KadError) (user_data : TUserData)
  | GetRecordRes (record : Option Record) (closer_peers : List KadPeer)
      (user_data : TUserData)
  | PutRecordRes (key : Bytes) (value : Bytes) (user_data : TUserData)

/-- `process_kad_response`: translates a response into a protocol event. -/
def process_kad_response {TUserData : Type} (event : KadResponseMsg)
    (user_data : TUserData) : ProtocolEvent TUserData :=
  match event with
  | .Pong =>
    .QueryError (.UnexpectedMessage "We never send out pings") user_data
  | .FindNode closer_peers => .FindNodeRes closer_peers user_data
  | .GetProviders closer_peers provider_peers =>
    .GetProvidersRes closer_peers provider_peers user_data
  | .GetValue record closer_peers => .GetRecordRes record closer_peers user_data
  | .PutValue key value => .PutRecordRes key value user_data

/-! ### Concrete parser instances used to evaluate the theorems -/

/-- A parser that accepts every byte string. -/
def acceptAll : Bytes → Bool := fun _ => true

/-- A parser that accepts exactly the two-byte strings. -/
def acceptPairs : Bytes → Bool := fun bs => bs.length == 2

/-! ### Well-formedness of in-memory messages

These predicates express the contracts the source assumes of the external
types: a `KadPeer` holds a peer id and addresses whose byte forms parse
back successfully, and a `Record` holds a publisher whose (non-empty) byte
form parses back, and an expiry that is either absent or a whole positive
number of seconds (fewer than `2^32`) after `now`. -/

/-- A `KadPeer` whose id and addresses all parse back from their bytes. -/
def KadPeer.wf (vPid vAddr : Bytes → Bool) (p : KadPeer) : Bool :=
  vPid p.node_id.bytes && p.multiaddrs.all fun a => vAddr a.bytes

/-- A `Record` whose publisher parses back from its (non-empty) bytes and
whose expiry, when present, is a whole positive number of seconds (fewer
than `2^32`) after `now`. -/
def Record.wf (vPid : Bytes → Bool) (now : Nat) (r : Record) : Bool :=
  (match r.publisher with
   | none => true
   | some p => vPid p.bytes && !p.bytes.isEmpty) &&
  (match r.expires with
   | none => true
   | some t =>
     decide (now + nanosPerSec ≤ t) && decide ((t - now) % nanosPerSec = 0) &&
       decide ((t - now) / nanosPerSec < 2 ^ 32))

/-- A request whose embedded peers and records are well-formed. -/
def KadRequestMsg.wf (vPid vAddr : Bytes → Bool) (now : Nat) : KadRequestMsg → Bool
  | .AddProvider _ provider => provider.wf vPid vAddr
  | .PutValue record => record.wf vPid now
  | _ => true

/-- A response whose embedded peers and records are well-formed. -/
def KadResponseMsg.wf (vPid vAddr : Bytes → Bool) (now : Nat) : KadResponseMsg → Bool
  | .FindNode cp => cp.all (KadPeer.wf vPid vAddr)
  | .GetProviders cp pp =>
    cp.all (KadPeer.wf vPid vAddr) && pp.all (KadPeer.wf vPid vAddr)
  | .GetValue rec cp =>
    (rec.map (Record.wf vPid now)).getD true && cp.all (KadPeer.wf vPid vAddr)
  | _ => true

/-! ### Helper lemmas -/

theorem findSome?_eq_head?_filterMap {α β : Type} (f : α → Option β) (l : List α) :
    l.findSome? f = (l.filterMap f).head? := by
  induction l with
  | nil => rfl
  | cons a l ih =>
    simp only [List.findSome?, List.filterMap_cons]
    cases h : f a with
    | none => simp only [h]; exact ih
    | some b => simp only [h, List.head?_cons]

theorem findSome?_eq_none_of_all_none {α β : Type} {f : α → Option β} {l : List α}
    (h : ∀ a ∈ l, f a = none) : l.findSome? f = none := by
  induction l with
  | nil => rfl
  | cons a l ih =>
    simp only [List.findSome?, h a (by simp)]
    exact ih fun a ha => h a (by simp [ha])

/-! ### Theorems about the claims -/

/-- C2 (amended): `req_msg_to_proto` sets `cluster_level_raw = 10` for the
`FindNode`, `GetProviders`, `AddProvider` and `GetValue` requests but leaves
the default `0` for `Ping` and `PutValue`; `resp_msg_to_proto` sets
`cluster_level_raw = 9` for the `FindNode`, `GetProviders` and `GetValue`
responses but leaves the default `0` for `Pong` and `PutValue`. -/
theorem C2_cluster_level (now : Nat) :
    (∀ req : KadRequestMsg,
      (req_msg_to_proto now req).cluster_level_raw =
        match req with
        | .Ping => 0
        | .PutValue _ => 0
        | _ => 10) ∧
    (∀ resp : KadResponseMsg,
      (resp_msg_to_proto now resp).cluster_level_raw =
        match resp with
        | .Pong => 0
        | .PutValue _ _ => 0
        | _ => 9) := by
  constructor <;> intro m <;> cases m <;> rfl

/-- C2 fails as stated: the encoded `Ping` request does not carry
`cluster_level_raw = 10`, and the encoded `PutValue` response (a non-`Pong`
response) does not carry `cluster_level_raw = 9`. -/
theorem C2_counterexample :
    (req_msg_to_proto 0 .Ping).cluster_level_raw ≠ 10 ∧
    (resp_msg_to_proto 0 (.PutValue [] [])).cluster_level_raw ≠ 9 := by
  decide

/-- C6: decoding a `PutValue` wire message as a response fails with the data
error "received PutValue message with no record" when the record field is
absent, and otherwise yields `PutValue` with the top-level key and the
record's value. -/
theorem C6_putvalue_resp (vPid vAddr : Bytes → Bool) (now : Nat) (m : ProtoMessage)
    (htype : m.mtype = 1) :
    (m.record = none →
      proto_to_resp_msg vPid vAddr now m =
        .error (invalid_data "received PutValue message with no record")) ∧
    (∀ rec, m.record = some rec →
      proto_to_resp_msg vPid vAddr now m = .ok (.PutValue m.key rec.value)) := by
  constructor
  · intro hrec
    simp [proto_to_resp_msg, messageTypeFromInt, htype, hrec]
  · intro rec hrec
    simp [proto_to_resp_msg, messageTypeFromInt, htype, hrec]

theorem C6_witness :
    proto_to_resp_msg acceptAll acceptAll 0 { ProtoMessage.default with mtype := 1 } =
      .error (invalid_data "received PutValue message with no record") :=
  (C6_putvalue_resp acceptAll acceptAll 0 _ rfl).1 rfl

/-- C7: a wire message whose type code is outside the six known codes `0..5`
fails to decode, both as a request and as a response, with an invalid-data
error reporting the unknown message type. -/
theorem C7_unknown_type (vPid vAddr : Bytes → Bool) (now : Nat) (m : ProtoMessage)
    (h : m.mtype < 0 ∨ 5 < m.mtype) :
    proto_to_req_msg vPid vAddr now m =
      .error (invalid_data ("unknown message type: " ++ toString m.mtype)) ∧
    proto_to_resp_msg vPid vAddr now m =
      .error (invalid_data ("unknown message type: " ++ toString m.mtype)) := by
  have hnone : messageTypeFromInt m.mtype = none := by
    unfold messageTypeFromInt
    rw [if_neg (by omega), if_neg (by omega), if_neg (by omega), if_neg (by omega),
      if_neg (by omega), if_neg (by omega)]
  constructor <;> simp [proto_to_req_msg, proto_to_resp_msg, hnone]

theorem C7_witness :
    proto_to_req_msg acceptAll acceptAll 0 { ProtoMessage.default with mtype := 6 } =
      .error (invalid_data ("unknown message type: " ++ toString (6 : Int))) :=
  (C7_unknown_type acceptAll acceptAll 0 _ (Or.inr (by norm_num))).1

/-- C8: `process_kad_response` maps `Pong` to a `QueryError` carrying
`UnexpectedMessage "We never send out pings"`, and the other response
variants to `FindNodeRes`, `GetProvidersRes`, `GetRecordRes` and
`PutRecordRes` respectively, copying the response fields and the
`user_data` tag unchanged. -/
theorem C8_process_response {U : Type} (u : U) :
    process_kad_response .Pong u =
      .QueryError (.UnexpectedMessage "We never send out pings") u ∧
    (∀ cp, process_kad_response (.FindNode cp) u = .FindNodeRes cp u) ∧
    (∀ cp pp, process_kad_response (.GetProviders cp pp) u = .GetProvidersRes cp pp u) ∧
    (∀ rec cp, process_kad_response (.GetValue rec cp) u = .GetRecordRes rec cp u) ∧
    (∀ k v, process_kad_response (.PutValue k v) u = .PutRecordRes k v u) :=
  ⟨rfl, fun _ => rfl, fun _ _ => rfl, fun _ _ => rfl, fun _ _ => rfl⟩

/-- C10: `proto_to_req_msg` always succeeds on the `Ping`, `GetValue`,
`GetProviders` and `FindNode` type codes, whatever the other fields hold;
and any decode error arises only from the `PutValue` or `AddProvider` codes
or an unknown code. -/
theorem C10_req_total (vPid vAddr : Bytes → Bool) (now : Nat) (m : ProtoMessage) :
    ((m.mtype = 0 ∨ m.mtype = 2 ∨ m.mtype = 4 ∨ m.mtype = 5) →
      ∃ r, proto_to_req_msg vPid vAddr now m = .ok r) ∧
    (∀ e, proto_to_req_msg vPid vAddr now m = .error e →
      m.mtype = 1 ∨ m.mtype = 3 ∨ m.mtype < 0 ∨ 5 < m.mtype) := by
  constructor
  · rintro (h | h | h | h)
    · exact ⟨.Ping, by simp [proto_to_req_msg, messageTypeFromInt, h]⟩
    · exact ⟨.GetValue m.key, by simp [proto_to_req_msg, messageTypeFromInt, h]⟩
    · exact ⟨.GetProviders m.key, by simp [proto_to_req_msg, messageTypeFromInt, h]⟩
    · exact ⟨.FindNode m.key, by simp [proto_to_req_msg, messageTypeFromInt, h]⟩
  · intro e he
    by_contra hn
    push_neg at hn
    have hcases : m.mtype = 0 ∨ m.mtype = 2 ∨ m.mtype = 4 ∨ m.mtype = 5 := by omega
    rcases hcases with h | h | h | h <;>
      simp [proto_to_req_msg, messageTypeFromInt, h] at he

theorem C10_witness :
    ∃ r, proto_to_req_msg acceptAll acceptAll 0 ProtoMessage.default = .ok r :=
  (C10_req_total acceptAll acceptAll 0 ProtoMessage.default).1 (Or.inl rfl)

/-- C3: decoding an `AddProvider` wire message as a request yields
`AddProvider` carrying the first provider-peer entry that converts
successfully (with the top-level key taken verbatim); when no entry converts
successfully, it yields the invalid-data error "AddProvider message with no
valid peer." -/
theorem C3_addprovider_req (vPid vAddr : Bytes → Bool) (now : Nat) (m : ProtoMessage)
    (htype : m.mtype = 3) :
    (∀ provider,
      (m.provider_peers.filterMap
        fun peer => (KadPeer.try_from vPid vAddr peer).toOption).head? = some provider →
      proto_to_req_msg vPid vAddr now m = .ok (.AddProvider m.key provider)) ∧
    ((∀ peer ∈ m.provider_peers, (KadPeer.try_from vPid vAddr peer).toOption = none) →
      proto_to_req_msg vPid vAddr now m =
        .error (invalid_data "AddProvider message with no valid peer.")) := by
  constructor
  · intro provider hfirst
    have hfind : m.provider_peers.findSome?
        (fun peer => (KadPeer.try_from vPid vAddr peer).toOption) = some provider := by
      rw [findSome?_eq_head?_filterMap]
      exact hfirst
    simp [proto_to_req_msg, messageTypeFromInt, htype, hfind]
  · intro hnone
    have hfind : m.provider_peers.findSome?
        (fun peer => (KadPeer.try_from vPid vAddr peer).toOption) = none :=
      findSome?_eq_none_of_all_none hnone
    simp [proto_to_req_msg, messageTypeFromInt, htype, hfind]

theorem C3_witness :
    proto_to_req_msg acceptPairs acceptPairs 0
      { ProtoMessage.default with
        mtype := 3, key := [7],
        provider_peers := [⟨[9], [], 1⟩, ⟨[1, 2], [], 1⟩] } =
      .ok (.AddProvider [7] ⟨⟨[1, 2]⟩, [], .Connected⟩) :=
  (C3_addprovider_req acceptPairs acceptPairs 0 _ rfl).1 _ rfl

/-- C4: response peer-list decoding is tolerant: for `FindNode`,
`GetProviders` and `GetValue` wire messages, the decoded peer lists are the
in-order sublists of the entries that convert successfully, and a failing
peer entry never makes `proto_to_resp_msg` fail. -/
theorem C4_tolerant_resp (vPid vAddr : Bytes → Bool) (now : Nat) (m : ProtoMessage) :
    (m.mtype = 5 →
      proto_to_resp_msg vPid vAddr now m =
        .ok (.FindNode (m.closer_peers.filterMap
          fun peer => (KadPeer.try_from vPid vAddr peer).toOption))) ∧
    (m.mtype = 4 →
      proto_to_resp_msg vPid vAddr now m =
        .ok (.GetProviders
          (m.closer_peers.filterMap
            fun peer => (KadPeer.try_from vPid vAddr peer).toOption)
          (m.provider_peers.filterMap
            fun peer => (KadPeer.try_from vPid vAddr peer).toOption))) ∧
    (m.mtype = 2 → m.record = none →
      proto_to_resp_msg vPid vAddr now m =
        .ok (.GetValue none (m.closer_peers.filterMap
          fun peer => (KadPeer.try_from vPid vAddr peer).toOption))) ∧
    (m.mtype = 2 → ∀ r rec, m.record = some r →
      record_from_proto vPid now r = .ok rec →
      proto_to_resp_msg vPid vAddr now m =
        .ok (.GetValue (some rec) (m.closer_peers.filterMap
          fun peer => (KadPeer.try_from vPid vAddr peer).toOption))) := by
  refine ⟨fun h5 => ?_, fun h4 => ?_, fun h2 hrec => ?_, fun h2 r rec hrec hok => ?_⟩
  · simp [proto_to_resp_msg, messageTypeFromInt, h5]
  · simp [proto_to_resp_msg, messageTypeFromInt, h4]
  · simp [proto_to_resp_msg, messageTypeFromInt, h2, hrec]
  · simp [proto_to_resp_msg, messageTypeFromInt, h2, hrec, hok]

theorem C4_witness :
    proto_to_resp_msg acceptPairs acceptPairs 0
      { ProtoMessage.default with
        mtype := 5, closer_peers := [⟨[1, 2], [], 1⟩, ⟨[9], [], 1⟩] } =
      .ok (.FindNode [⟨⟨[1, 2]⟩, [], .Connected⟩]) :=
  (C4_tolerant_resp acceptPairs acceptPairs 0 _).1 rfl

/-- The address loop of `KadPeer::try_from` fails (with the invalid-data
multiaddr error) as soon as some entry does not parse. -/
theorem parseAddrs_error_of_bad (vAddr : Bytes → Bool) {l : List Bytes}
    (h : ∃ a ∈ l, vAddr a = false) :
    parseAddrs vAddr l = .error (invalid_data "invalid multiaddr") := by
  induction l with
  | nil => simp at h
  | cons a l ih =>
    by_cases hva : vAddr a = true
    · obtain ⟨b, hb, hvb⟩ := h
      rcases List.mem_cons.mp hb with rfl | hbl
      · rw [hva] at hvb; cases hvb
      · simp only [parseAddrs, Multiaddr.try_from, if_pos hva, ih ⟨b, hbl, hvb⟩]
    · simp only [Bool.not_eq_true] at hva
      simp only [parseAddrs, Multiaddr.try_from, hva, if_neg Bool.false_ne_true]

/-- When the address loop of `KadPeer::try_from` succeeds, the parsed
multiaddresses carry the input byte strings in order. -/
theorem parseAddrs_ok (vAddr : Bytes → Bool) {l : List Bytes} {mas : List Multiaddr}
    (h : parseAddrs vAddr l = .ok mas) : mas.map Multiaddr.to_vec = l := by
  induction l generalizing mas with
  | nil =>
    simp only [parseAddrs] at h
    cases h
    rfl
  | cons a l ih =>
    simp only [parseAddrs] at h
    cases hva : Multiaddr.try_from vAddr a with
    | none => rw [hva] at h; cases h
    | some ma =>
      rw [hva] at h
      cases hrest : parseAddrs vAddr l with
      | error e => rw [hrest] at h; cases h
      | ok mas' =>
        rw [hrest] at h
        cases h
        have hma : ma.to_vec = a := by
          unfold Multiaddr.try_from at hva
          by_cases hb : vAddr a = true
          · rw [if_pos hb] at hva; cases hva; rfl
          · simp only [Bool.not_eq_true] at hb
            rw [hb, if_neg Bool.false_ne_true] at hva; cases hva
        simp [hma, ih hrest]

/-- C9: `KadPeer::try_from` is all-or-nothing on addresses: when the id
parses but some address entry does not, the whole conversion fails with an
invalid-data error; and every successful conversion carries exactly the
input address byte strings, in order. -/
theorem C9_kadpeer_try_from (vPid vAddr : Bytes → Bool) (peer : ProtoPeer) :
    (vPid peer.id = true → (∃ a ∈ peer.addrs, vAddr a = false) →
      ∃ e, KadPeer.try_from vPid vAddr peer = .error e ∧ e.kind = .invalidData) ∧
    (∀ kp, KadPeer.try_from vPid vAddr peer = .ok kp →
      kp.multiaddrs.map Multiaddr.to_vec = peer.addrs) := by
  constructor
  · intro hid hbad
    refine ⟨invalid_data "invalid multiaddr", ?_, rfl⟩
    simp only [KadPeer.try_from, PeerId.from_bytes, if_pos hid,
      parseAddrs_error_of_bad vAddr hbad]
  · intro kp h
    unfold KadPeer.try_from at h
    cases hpid : PeerId.from_bytes vPid peer.id with
    | none => rw [hpid] at h; cases h
    | some node_id =>
      rw [hpid] at h
      cases hpa : parseAddrs vAddr peer.addrs with
      | error e => rw [hpa] at h; cases h
      | ok addrs =>
        rw [hpa] at h
        cases hct : connectionTypeFromInt peer.connection with
        | none => rw [hct] at h; cases h
        | some ct =>
          rw [hct] at h
          cases h
          exact parseAddrs_ok vAddr hpa

theorem C9_witness :
    ∃ e, KadPeer.try_from acceptPairs acceptPairs ⟨[1, 2], [[9]], 1⟩ = .error e ∧
      e.kind = .invalidData :=
  (C9_kadpeer_try_from acceptPairs acceptPairs ⟨[1, 2], [[9]], 1⟩).1 rfl
    ⟨[9], by simp, rfl⟩

/-- C5 (amended): the TTL mapping of `record_from_proto` /
`record_to_proto`: decode maps `ttl = 0` to no expiry and `ttl > 0` to
`now + ttl` seconds; encode maps an absent expiry to `ttl = 0`, an expiry at
or before `now` to `ttl = 1`, and an expiry of `now + 60s` (encoded within
one second) to a `ttl` in `[59, 60]`; the encoded `ttl` is nonzero whenever
the expiry is at or before `now`, or at least one second and less than
`2^32` seconds in the future — but a future expiry under one second away
encodes as `ttl = 0`. -/
theorem C5_ttl_mapping (vPid : Bytes → Bool) (now : Nat) :
    (∀ (r : ProtoRecord) (rec : Record), r.ttl = 0 →
      record_from_proto vPid now r = .ok rec → rec.expires = none) ∧
    (∀ (r : ProtoRecord) (rec : Record), 0 < r.ttl →
      record_from_proto vPid now r = .ok rec →
      rec.expires = some (now + r.ttl * nanosPerSec)) ∧
    (∀ rec : Record, rec.expires = none → (record_to_proto now rec).ttl = 0) ∧
    (∀ (rec : Record) (t : Nat), rec.expires = some t → t ≤ now →
      (record_to_proto now rec).ttl = 1) ∧
    (∀ (rec : Record) (now2 : Nat), rec.expires = some (now + 60 * nanosPerSec) →
      now ≤ now2 → now2 ≤ now + nanosPerSec →
      59 ≤ (record_to_proto now2 rec).ttl ∧ (record_to_proto now2 rec).ttl ≤ 60) ∧
    (∀ (rec : Record) (t : Nat), rec.expires = some t →
      (t ≤ now ∨ (now + nanosPerSec ≤ t ∧ t < now + 2 ^ 32 * nanosPerSec)) →
      (record_to_proto now rec).ttl ≠ 0) := by
  have hg : 0 < nanosPerSec := by norm_num [nanosPerSec]
  refine ⟨?_, ?_, ?_, ?_, ?_, ?_⟩
  · intro r rec h0 hok
    unfold record_from_proto at hok
    split at hok
    · cases hok
    · simp only [Except.ok.injEq] at hok
      rw [← hok]
      simp [h0]
  · intro r rec hpos hok
    unfold record_from_proto at hok
    split at hok
    · cases hok
    · simp only [Except.ok.injEq] at hok
      rw [← hok]
      simp [hpos]
  · intro rec h
    simp [record_to_proto, h]
  · intro rec t h hle
    have : ¬ now < t := by omega
    simp [record_to_proto, h, this]
  · intro rec now2 h h1 h2
    have hlt : now2 < now + 60 * nanosPerSec := by omega
    have hd1 : 59 * nanosPerSec ≤ now + 60 * nanosPerSec - now2 := by omega
    have hd2 : now + 60 * nanosPerSec - now2 ≤ 60 * nanosPerSec := by omega
    have hq1 : 59 ≤ (now + 60 * nanosPerSec - now2) / nanosPerSec :=
      (Nat.le_div_iff_mul_le hg).mpr hd1
    have hq2 : (now + 60 * nanosPerSec - now2) / nanosPerSec ≤ 60 := by
      have := Nat.div_le_div_right (c := nanosPerSec) hd2
      rwa [Nat.mul_div_cancel _ hg] at this
    have hmod : (now + 60 * nanosPerSec - now2) / nanosPerSec % 2 ^ 32 =
        (now + 60 * nanosPerSec - now2) / nanosPerSec :=
      Nat.mod_eq_of_lt (by omega)
    simp only [record_to_proto, h, if_pos hlt, hmod]
    exact ⟨hq1, hq2⟩
  · intro rec t h hcases
    rcases hcases with hle | ⟨hfar, hnear⟩
    · have : ¬ now < t := by omega
      simp [record_to_proto, h, this]
    · have hlt : now < t := by omega
      have hq1 : 1 ≤ (t - now) / nanosPerSec :=
        (Nat.le_div_iff_mul_le hg).mpr (by omega)
      have hq2 : (t - now) / nanosPerSec < 2 ^ 32 :=
        (Nat.div_lt_iff_lt_mul hg).mpr (by omega)
      simp only [record_to_proto, h, if_pos hlt, Nat.mod_eq_of_lt hq2]
      omega

/-- C5 fails as stated: a record with a present expiry half a second in the
future encodes with `ttl = 0`. -/
theorem C5_counterexample :
    ((⟨[], [], none, some 500000000⟩ : Record).expires ≠ none) ∧
    (record_to_proto 0 ⟨[], [], none, some 500000000⟩).ttl = 0 := by
  constructor
  · simp
  · rfl

theorem C5_witness :
    (record_to_proto 500 ⟨[], [], none, some 1⟩).ttl = 1 :=
  (C5_ttl_mapping acceptAll 500).2.2.2.1 ⟨[], [], none, some 1⟩ 1 rfl (by norm_num)

/-- Connection types survive the trip through their wire code. -/
theorem connectionType_roundtrip (ct : KadConnectionType) :
    connectionTypeFromInt ct.toInt = some ct := by
  cases ct <;> rfl

/-- The address loop parses back the byte forms of parsed multiaddresses. -/
theorem parseAddrs_map_to_vec (vAddr : Bytes → Bool) {mas : List Multiaddr}
    (h : ∀ a ∈ mas, vAddr a.bytes = true) :
    parseAddrs vAddr (mas.map Multiaddr.to_vec) = .ok mas := by
  induction mas with
  | nil => rfl
  | cons ma mas ih =>
    simp only [List.map_cons, parseAddrs, Multiaddr.try_from, Multiaddr.to_vec]
    rw [if_pos (h ma (by simp))]
    rw [ih fun a ha => h a (by simp [ha])]

/-- A well-formed peer survives the trip through its wire form. -/
theorem try_from_intoProto (vPid vAddr : Bytes → Bool) {p : KadPeer}
    (h : p.wf vPid vAddr = true) :
    KadPeer.try_from vPid vAddr p.intoProto = .ok p := by
  rw [KadPeer.wf, Bool.and_eq_true, List.all_eq_true] at h
  obtain ⟨hid, haddrs⟩ := h
  simp only [KadPeer.try_from, KadPeer.intoProto, PeerId.into_bytes, PeerId.from_bytes]
  rw [if_pos hid]
  rw [parseAddrs_map_to_vec vAddr fun a ha => by simpa using haddrs a ha]
  rw [connectionType_roundtrip]

/-- Tolerant list decoding parses back a list of well-formed peers. -/
theorem filterMap_try_from_map_intoProto (vPid vAddr : Bytes → Bool) {l : List KadPeer}
    (h : ∀ p ∈ l, p.wf vPid vAddr = true) :
    (l.map KadPeer.intoProto).filterMap
      (fun peer => (KadPeer.try_from vPid vAddr peer).toOption) = l := by
  induction l with
  | nil => rfl
  | cons p l ih =>
    rw [List.map_cons, List.filterMap_cons, try_from_intoProto vPid vAddr (h p (by simp))]
    exact congrArg (p :: ·) (ih fun q hq => h q (by simp [hq]))

/-- A well-formed record survives the trip through its wire form. -/
theorem record_from_to_proto (vPid : Bytes → Bool) (now : Nat) {r : Record}
    (h : r.wf vPid now = true) :
    record_from_proto vPid now (record_to_proto now r) = .ok r := by
  have hg : 0 < nanosPerSec := by norm_num [nanosPerSec]
  obtain ⟨key, value, publisher, expires⟩ := r
  rw [Record.wf, Bool.and_eq_true] at h
  obtain ⟨hpub, hexp⟩ := h
  cases publisher with
  | none =>
    cases expires with
    | none =>
      simp [record_to_proto, record_from_proto]
    | some t =>
      simp only [decide_eq_true_eq, Bool.and_eq_true] at hexp
      obtain ⟨⟨h1, h2⟩, h3⟩ := hexp
      have hlt : now < t := by omega
      have hq1 : 0 < (t - now) / nanosPerSec := Nat.div_pos (by omega) hg
      have hmul : now + (t - now) / nanosPerSec * nanosPerSec = t := by
        rw [Nat.div_mul_cancel (Nat.dvd_of_mod_eq_zero h2)]
        omega
      have hmod : (t - now) / nanosPerSec % 4294967296 = (t - now) / nanosPerSec :=
        Nat.mod_eq_of_lt (by simpa using h3)
      simp [record_to_proto, record_from_proto, if_pos hlt, hmod, hq1, hmul]
  | some p =>
    simp only [Bool.and_eq_true, Bool.not_eq_true', List.isEmpty_eq_false] at hpub
    obtain ⟨hp1, hp2⟩ := hpub
    cases expires with
    | none =>
      simp [record_to_proto, record_from_proto, PeerId.into_bytes, PeerId.from_bytes,
        hp1, hp2]
    | some t =>
      simp only [decide_eq_true_eq, Bool.and_eq_true] at hexp
      obtain ⟨⟨h1, h2⟩, h3⟩ := hexp
      have hlt : now < t := by omega
      have hq1 : 0 < (t - now) / nanosPerSec := Nat.div_pos (by omega) hg
      have hmul : now + (t - now) / nanosPerSec * nanosPerSec = t := by
        rw [Nat.div_mul_cancel (Nat.dvd_of_mod_eq_zero h2)]
        omega
      have hmod : (t - now) / nanosPerSec % 4294967296 = (t - now) / nanosPerSec :=
        Nat.mod_eq_of_lt (by simpa using h3)
      simp [record_to_proto, record_from_proto, PeerId.into_bytes, PeerId.from_bytes,
        hp1, hp2, if_pos hlt, hmod, hq1, hmul]

/-- C1 (amended): round-trip law for well-formed messages: for every request
in `{Ping, FindNode, GetProviders, AddProvider, GetValue, PutValue}` and
every response in `{Pong, FindNode, GetProviders, GetValue, PutValue}` whose
embedded peers parse back from their bytes and whose embedded records have
an absent expiry or one that is a whole positive number of seconds (fewer
than `2^32`) in the future, decoding the encoding yields the original
message. -/
theorem C1_roundtrip (vPid vAddr : Bytes → Bool) (now : Nat) :
    (∀ req : KadRequestMsg, req.wf vPid vAddr now = true →
      proto_to_req_msg vPid vAddr now (req_msg_to_proto now req) = .ok req) ∧
    (∀ resp : KadResponseMsg, resp.wf vPid vAddr now = true →
      proto_to_resp_msg vPid vAddr now (resp_msg_to_proto now resp) = .ok resp) := by
  constructor
  · intro req hwf
    cases req with
    | Ping => rfl
    | FindNode key => rfl
    | GetProviders key => rfl
    | GetValue key => rfl
    | AddProvider key provider =>
      have hp : KadPeer.try_from vPid vAddr provider.intoProto = .ok provider :=
        try_from_intoProto vPid vAddr (by simpa [KadRequestMsg.wf] using hwf)
      simp [proto_to_req_msg, req_msg_to_proto, messageTypeFromInt, MessageType.toInt,
        List.findSome?, hp, Except.toOption]
    | PutValue record =>
      have hr := record_from_to_proto vPid now (r := record)
        (by simpa [KadRequestMsg.wf] using hwf)
      simp [proto_to_req_msg, req_msg_to_proto, messageTypeFromInt, MessageType.toInt, hr]
  · intro resp hwf
    cases resp with
    | Pong => rfl
    | PutValue key value => rfl
    | FindNode cp =>
      have hcp : ∀ p ∈ cp, p.wf vPid vAddr = true := by
        simpa [KadResponseMsg.wf, List.all_eq_true] using hwf
      simp [proto_to_resp_msg, resp_msg_to_proto, messageTypeFromInt, MessageType.toInt,
        filterMap_try_from_map_intoProto vPid vAddr hcp]
    | GetProviders cp pp =>
      rw [KadResponseMsg.wf, Bool.and_eq_true, List.all_eq_true, List.all_eq_true] at hwf
      obtain ⟨hcp, hpp⟩ := hwf
      simp [proto_to_resp_msg, resp_msg_to_proto, messageTypeFromInt, MessageType.toInt,
        filterMap_try_from_map_intoProto vPid vAddr hcp,
        filterMap_try_from_map_intoProto vPid vAddr hpp]
    | GetValue rec cp =>
      rw [KadResponseMsg.wf, Bool.and_eq_true, List.all_eq_true] at hwf
      obtain ⟨hrec, hcp⟩ := hwf
      have hfm := filterMap_try_from_map_intoProto vPid vAddr hcp
      cases rec with
      | none =>
        simp [proto_to_resp_msg, resp_msg_to_proto, messageTypeFromInt, MessageType.toInt, hfm]
      | some r =>
        have hr := record_from_to_proto vPid now (r := r) (by simpa using hrec)
        simp [proto_to_resp_msg, resp_msg_to_proto, messageTypeFromInt, MessageType.toInt, hfm, hr]

/-- C1 fails as stated: a `PutValue` request carrying a record whose expiry
lies at the decoder's `now` (so not in the future) does not round-trip —
the decoded record's expiry moves one second into the future. -/
theorem C1_counterexample :
    proto_to_req_msg acceptAll acceptAll 0
        (req_msg_to_proto 0 (.PutValue ⟨[], [], none, some 0⟩)) ≠
      .ok (.PutValue ⟨[], [], none, some 0⟩) := by
  intro h
  rw [show proto_to_req_msg acceptAll acceptAll 0
      (req_msg_to_proto 0 (.PutValue ⟨[], [], none, some 0⟩)) =
      .ok (.PutValue ⟨[], [], none, some 1000000000⟩) from rfl] at h
  simp at h

theorem C1_witness :
    proto_to_req_msg acceptPairs acceptPairs 0
        (req_msg_to_proto 0
          (.AddProvider [7] ⟨⟨[1, 2]⟩, [⟨[3, 4]⟩], .Connected⟩)) =
      .ok (.AddProvider [7] ⟨⟨[1, 2]⟩, [⟨[3, 4]⟩], .Connected⟩) :=
  (C1_roundtrip acceptPairs acceptPairs 0).1 _ (by decide)

end KadProtocol
